import Mathlib

/-!
Verification of the plexplay playlist-generation code (src/plexplay) against its
natural-language specification.

The Python code is shallowly embedded:

* A pandas `DataFrame` of tracks becomes a `List Row` together with two flags
  recording whether the `rating` and `lastviewed` columns are present
  (`hasattr(musicpd, 'rating')` in the source tests column presence).
* Star ratings are `Rat`: the source halves a raw 0 to 10 integer scale, so
  ratings may be half-integral.
* The Python `random` module is modelled by explicit streams of natural
  numbers.  `random.sample(l, k)` (uniform sampling without replacement)
  becomes `sample g k l`, which repeatedly removes the element at index
  `g i % remaining length`; quantifying over all streams `g` covers exactly
  the set of outcomes the uniform sampler can produce.  `random.shuffle` is
  sampling the whole list, `random.choice` indexes by the stream.
* Fallible Python code (attribute lookup on a missing column raises
  `AttributeError`) returns `Except PyError`.
* The environment-variable configuration (`config.py`, `utils.py`) is
  embedded over `Env := String → Option String`.
-/

open List

namespace PlexPlay

/-! ## Randomness model -/

/-- One step of `random.sample`: the stream `g` picks an index into the
remaining pool, the picked element is removed.  `sample g k l` draws `k`
elements without replacement (all of `l` if `k` exceeds its length).  Every
outcome of Python `random.sample(l, k)` is `sample g k l` for some stream
`g`, and conversely. -/
def sample [Inhabited α] (g : Nat → Nat) : Nat → List α → List α
  | 0, _ => []
  | _ + 1, [] => []
  | k + 1, x :: xs =>
    let l := x :: xs
    let i := g 0 % l.length
    l.getD i default :: sample (fun n => g (n + 1)) k (l.eraseIdx i)

/-- Model of Python `random.shuffle l`: a full draw without replacement. -/
def shuffle [Inhabited α] (g : Nat → Nat) (l : List α) : List α :=
  sample g l.length l

/-- Model of Python `random.choice l` at call site `i`, driven by stream `c`. -/
def pyChoice [Inhabited α] (c : Nat → Nat) (i : Nat) (l : List α) : α :=
  l.getD (c i % l.length) default

theorem sample_subperm [Inhabited α] [DecidableEq α] (g : Nat → Nat) (k : Nat) (l : List α) :
    sample g k l <+~ l := by
  induction k generalizing g l with
  | zero => simp [sample]
  | succ k ih =>
    cases l with
    | nil => simp [sample]
    | cons x xs =>
      have hl : 0 < (x :: xs).length := by simp
      have hi : g 0 % (x :: xs).length < (x :: xs).length := Nat.mod_lt _ hl
      have hperm : (x :: xs) ~ (x :: xs)[g 0 % (x :: xs).length] :: (x :: xs).eraseIdx (g 0 % (x :: xs).length) :=
        (List.perm_cons_erase (List.getElem_mem hi)).trans (.cons _ (List.erase_getElem hi))
      have hsub := (List.subperm_cons ((x :: xs)[g 0 % (x :: xs).length])).mpr
        (ih (fun n => g (n + 1)) ((x :: xs).eraseIdx (g 0 % (x :: xs).length)))
      have : sample g (k + 1) (x :: xs) =
          (x :: xs)[g 0 % (x :: xs).length] ::
            sample (fun n => g (n + 1)) k ((x :: xs).eraseIdx (g 0 % (x :: xs).length)) := by
        simp only [sample]
        rw [List.getD_eq_getElem _ _ hi]
      rw [this]
      exact hsub.trans hperm.symm.subperm

theorem length_sample [Inhabited α] (g : Nat → Nat) (k : Nat) (l : List α) :
    (sample g k l).length = min k l.length := by
  induction k generalizing g l with
  | zero => simp [sample]
  | succ k ih =>
    cases l with
    | nil => simp [sample]
    | cons x xs =>
      have hl : 0 < (x :: xs).length := by simp
      have hi : g 0 % (x :: xs).length < (x :: xs).length := Nat.mod_lt _ hl
      have herase := List.length_eraseIdx_add_one hi
      have heq : sample g (k + 1) (x :: xs) =
          (x :: xs).getD (g 0 % (x :: xs).length) default ::
            sample (fun n => g (n + 1)) k ((x :: xs).eraseIdx (g 0 % (x :: xs).length)) := rfl
      rw [heq, List.length_cons, ih]
      omega

theorem subperm_map (f : α → β) {l₁ l₂ : List α} (h : l₁ <+~ l₂) :
    l₁.map f <+~ l₂.map f := by
  obtain ⟨m, p, s⟩ := h
  exact ⟨m.map f, p.map f, s.map f⟩

theorem nodup_map_of_subperm [DecidableEq α] (f : α → β) {l₁ l₂ : List α}
    (h : l₁ <+~ l₂) (hn : (l₂.map f).Nodup) : (l₁.map f).Nodup := by
  obtain ⟨m, p, s⟩ := subperm_map f h
  exact p.nodup_iff.mp (hn.sublist s)

theorem shuffle_perm [Inhabited α] [DecidableEq α] (g : Nat → Nat) (l : List α) :
    shuffle g l ~ l :=
  (sample_subperm g l.length l).perm_of_length_le
    (by rw [length_sample]; omega)

theorem length_shuffle [Inhabited α] (g : Nat → Nat) (l : List α) :
    (shuffle g l).length = l.length := by
  rw [shuffle, length_sample]; omega

/-! ## Data model

A `Row` is one line of the cooked track table: the raw plexapi attributes
`[guid, title, parentTitle, grandparentTitle, userRating, viewCount,
lastViewedAt]` renamed to `[id, title, album, artist, rating, views,
lastviewed]`, with the opaque track handle identified with the row itself
(rows with distinct ids model distinct `Track` objects). -/

structure Row where
  id : Nat
  title : String
  album : String
  artist : String
  rating : Rat
  views : Nat
  lastviewed : Option Nat
  deriving DecidableEq, Repr

instance : Inhabited Row := ⟨⟨0, "", "", "", 0, 0, none⟩⟩

/-- The cooked track table.  `hasRating` / `hasLastviewed` record whether the
corresponding columns exist (in the source, `hasattr(musicpd, 'rating')`
tests this; accessing a missing column raises). -/
structure DataFrame where
  rows : List Row
  hasRating : Bool
  hasLastviewed : Bool
  deriving Repr

/-- A raw track as fetched from the plexapi library, with the attributes
listed in the default `music_attrs_raw` configuration. -/
structure RawTrack where
  guid : Nat
  title : String
  parentTitle : String
  grandparentTitle : String
  userRating : Rat
  viewCount : Nat
  lastViewedAt : Option Nat
  deriving DecidableEq, Repr

/-- Errors raised by the embedded Python code. -/
inductive PyError where
  | attributeError
  | keyError
  deriving DecidableEq, Repr

instance [DecidableEq ε] [DecidableEq α] : DecidableEq (Except ε α) := fun a b =>
  match a, b with
  | .error x, .error y =>
    match decEq x y with
    | isTrue h => isTrue (by rw [h])
    | isFalse h => isFalse (fun he => h (Except.error.inj he))
  | .ok x, .ok y =>
    match decEq x y with
    | isTrue h => isTrue (by rw [h])
    | isFalse h => isFalse (fun he => h (Except.ok.inj he))
  | .error _, .ok _ => isFalse (fun he => Except.noConfusion he)
  | .ok _, .error _ => isFalse (fun he => Except.noConfusion he)

/-! ## get_all_tracks (playlists.py lines 17-50) -/

/-- Pandas `drop_duplicates(key)`: keep the first occurrence of every key.
`seen` accumulates the keys of rows already kept. -/
def dedupByFirst [DecidableEq β] (key : α → β) : List α → List β → List α
  | [], _ => []
  | a :: l, seen =>
    if key a ∈ seen then dedupByFirst key l seen
    else a :: dedupByFirst key l (key a :: seen)

/-- Column renaming from `music_attrs_raw` to `music_attrs_cooked` together
with the `assign(track=...)` step: the row keeps its identity as the handle. -/
def toRow (t : RawTrack) : Row :=
  { id := t.guid, title := t.title, album := t.parentTitle,
    artist := t.grandparentTitle, rating := t.userRating,
    views := t.viewCount, lastviewed := t.lastViewedAt }

/-- Embedding of `get_all_tracks`: build the cooked table, drop duplicate ids
keeping the first occurrence, then halve the rating column when it is
present.  The two flags model which cooked columns the configured attribute
lists provide. -/
def get_all_tracks (hasRating hasLastviewed : Bool) (raws : List RawTrack) : DataFrame :=
  let cooked := raws.map toRow
  let deduped := dedupByFirst (fun r => r.id) cooked []
  let halved := if hasRating then deduped.map (fun r => { r with rating := r.rating / 2 })
                else deduped
  { rows := halved, hasRating := hasRating, hasLastviewed := hasLastviewed }

/-! ## generate_unrated_mix (playlists.py lines 53-92) -/

/-- The unrated selection `musicpd[musicpd.rating == 0.0]`. -/
def unratedTemp (df : DataFrame) : List Row :=
  df.rows.filter (fun r => decide (r.rating = (0 : Rat)))

/-- The per-album pool `temp_pd[temp_pd.album == album].track.tolist()`. -/
def albumPool (temp : List Row) (album : String) : List Row :=
  temp.filter (fun r => decide (r.album = album))

/-- One iteration of the while loop: take the next album from the cycle,
draw a random track from its unrated pool, and add it to the result set
(the Python `set.add` keeps the set unchanged on a duplicate). -/
def unratedStep (temp : List Row) (albums : List String) (c : Nat → Nat)
    (i : Nat) (acc : List Row) : List Row :=
  let album := albums.getD (i % albums.length) ""
  let pool := albumPool temp album
  let pick := pyChoice c i pool
  if pick ∈ acc then acc else acc ++ [pick]

/-- The `while len(tracks) < mix_size` loop, with fuel.  `i` is the position
in the album cycle, `acc` the result set (as a duplicate-free list).  A
`none` result means the loop has not terminated within `fuel` iterations. -/
def unratedLoop (mixSize : Nat) (temp : List Row) (albums : List String)
    (c : Nat → Nat) : Nat → Nat → List Row → Option (List Row)
  | 0, _, acc => if mixSize ≤ acc.length then some acc else none
  | fuel + 1, i, acc =>
    if mixSize ≤ acc.length then some acc
    else unratedLoop mixSize temp albums c fuel (i + 1) (unratedStep temp albums c i acc)

/-- Embedding of `generate_unrated_mix`.  `gAlbums` drives the one-time
`random.shuffle(albums)`, `c` drives the `random.choice` draws, and `fuel`
bounds the while loop (the Python loop has no such bound; `none` models
divergence). -/
def generate_unrated_mix (mixName : String) (mixSize : Nat) (gAlbums c : Nat → Nat)
    (fuel : Nat) (df : DataFrame) : Option (String × List Row) :=
  if df.hasRating then
    let temp := unratedTemp df
    if temp.length ≤ mixSize then some (mixName, temp)
    else
      let albums := shuffle gAlbums (dedupByFirst (fun a => a) (temp.map (fun r => r.album)) [])
      (unratedLoop mixSize temp albums c fuel 0 []).map (fun l => (mixName, l))
  else some (mixName, [])

/-! ## generate_hyper_shuffle_mix (playlists.py lines 95-130) -/

/-- Comparison used by `sort_values('lastviewed', na_position='first')`:
missing timestamps sort before all others. -/
def lastviewedLe (a b : Option Nat) : Bool :=
  match a, b with
  | none, _ => true
  | some _, none => false
  | some x, some y => x ≤ y

/-- The iteration order of `config.play_hyper_sources.items()`: the dict is
populated for stars 5, 4, 3, 2, 1, 0 in that order. -/
def hyperStars : List Nat := [5, 4, 3, 2, 1, 0]

/-- The body of the `for star, temp_count in ...` loop: filter to the star
rating, sort by last-viewed with missing values first, slice the first
`temp_count * multiplier` rows, then either sample `temp_count` of them or
take the whole slice. -/
def hyperBucket (rows : List Row) (star : Nat) (count mult : Nat)
    (g : Nat → Nat) : List Row :=
  let temp_list := ((rows.filter (fun r => decide (r.rating = (star : Rat)))).mergeSort
      (fun a b => lastviewedLe a.lastviewed b.lastviewed)).take (count * mult)
  if count ≤ temp_list.length then sample g count temp_list else temp_list

/-- Embedding of `generate_hyper_shuffle_mix`.  There is no `hasattr` guard
in the source: `musicpd.rating` on a table without a rating column raises
`AttributeError`, and `sort_values('lastviewed')` without that column raises
`KeyError` (the rating access is evaluated first).  `gs` gives the
`random.sample` stream of each bucket and `gshuffle` the final
`random.shuffle`. -/
def generate_hyper_shuffle_mix (mixName : String) (counts : Nat → Nat) (mult : Nat)
    (gs : Nat → Nat → Nat) (gshuffle : Nat → Nat) (df : DataFrame) :
    Except PyError (String × List Row) :=
  if df.hasRating = false then .error .attributeError
  else if df.hasLastviewed = false then .error .keyError
  else
    let tracks := (hyperStars.map (fun s => hyperBucket df.rows s (counts s) mult (gs s))).flatten
    .ok (mixName, shuffle gshuffle tracks)

/-- The HyperShuffle bucket contribution as the specification words it: take
the tracks at the rating, sort them ascending by last-played time with
unplayed tracks first, keep the first `count * multiplier` of them (the
recency window), then draw a sample of exactly `count` when the window holds
at least `count` tracks and the whole window otherwise.  Written from the
specification text, to be compared with `hyperBucket`. -/
def specBucketContribution (rows : List Row) (star : Nat) (count mult : Nat)
    (g : Nat → Nat) : List Row :=
  let atRating := rows.filter (fun r => decide (r.rating = (star : Rat)))
  let sorted := atRating.mergeSort (fun a b => lastviewedLe a.lastviewed b.lastviewed)
  let window := sorted.take (count * mult)
  if window.length ≥ count then sample g count window else window

/-! ## Configuration (utils.py get_from_env, config.py PlexConfig.init_env)

The process environment is a partial map from variable names to strings.
Python values flowing out of `get_from_env` are modelled by `EnvVal`;
string helpers are implemented over `List Char` so that concrete instances
evaluate inside the kernel. -/

def Env : Type := String → Option String

/-- A value `get_from_env` can return: `none` for Python `None`, `int` for a
numeric string, `str` for a plain string, `strList` for a pipe-separated
list, `dict` for the colon-separated dictionaries, `path` for names
containing FILE or DIR. -/
inductive EnvVal where
  | none
  | int (n : Nat)
  | str (s : String)
  | strList (l : List String)
  | dict (d : List (String × List String))
  | path (p : String)
  deriving DecidableEq, Repr

/-- Python truthiness of an `EnvVal` (`None`, `0`, empty string, empty list
and empty dict are falsy; `Path` objects are always truthy). -/
def pyTruthy : EnvVal → Bool
  | .none => false
  | .int n => n != 0
  | .str s => s != ""
  | .strList l => !l.isEmpty
  | .dict d => !d.isEmpty
  | .path _ => true

/-- Python `a or b` on `EnvVal`s. -/
def pyOr (a b : EnvVal) : EnvVal := if pyTruthy a then a else b

/-- Whether `pat` occurs as a contiguous run inside the character list. -/
def charsHasInfix (pat : List Char) : List Char → Bool
  | [] => pat.isEmpty
  | c :: rest => pat.isPrefixOf (c :: rest) || charsHasInfix pat rest

/-- Python `pat in s` (substring containment). -/
def strContains (s pat : String) : Bool := charsHasInfix pat.data s.data

/-- Python `s.split(c)` for a one-character separator. -/
def splitOnCharAux (c : Char) : List Char → List Char → List String
  | [], acc => [String.mk acc.reverse]
  | x :: xs, acc =>
    if x = c then String.mk acc.reverse :: splitOnCharAux c xs []
    else splitOnCharAux c xs (x :: acc)

def splitOnChar (c : Char) (s : String) : List String := splitOnCharAux c s.data []

/-- Python `s.split("::")` (leftmost non-overlapping matches). -/
def splitCC : List Char → List Char → List String
  | [], acc => [String.mk acc.reverse]
  | [x], acc => [String.mk (x :: acc).reverse]
  | x :: y :: rest, acc =>
    if x = ':' ∧ y = ':' then String.mk acc.reverse :: splitCC rest []
    else splitCC (y :: rest) (x :: acc)

/-- Python `s.replace('\\n', '\n')` (undoing a ConfigParser escape). -/
def replaceBackslashN : List Char → List Char
  | [] => []
  | [x] => [x]
  | x :: y :: rest =>
    if x = '\\' ∧ y = 'n' then '\n' :: replaceBackslashN rest
    else x :: replaceBackslashN (y :: rest)

/-- Python `s.isnumeric()`, restricted to the ASCII digits the
configuration actually uses. -/
def isNumericStr (s : String) : Bool := !s.data.isEmpty && s.data.all Char.isDigit

/-- Python `int(s)` on a digit string. -/
def natOfDigits (s : String) : Nat := s.data.foldl (fun n c => n * 10 + (c.toNat - 48)) 0

/-- Embedding of `utils.get_from_env` as called from `config.init_env`: all
those call sites pass no `template_option`, so the TMPL branch (which only
fires when a template option is supplied) is skipped.  A missing variable
yields `None`; a pipe in the value yields a list (or, when a piece is
exactly `"::"` or `":"`, a dict over the pieces containing that separator);
a numeric value yields an int; names containing FILE or DIR yield a Path;
anything else stays a string. -/
def get_from_env (env : Env) (name : String) : EnvVal :=
  match env name with
  | Option.none => .none
  | Option.some item =>
    if strContains item "|" then
      let pieces := ((splitOnChar '|' item).filter (fun x => decide (x ≠ ""))).map
        (fun x => String.mk (replaceBackslashN x.data))
      if pieces.contains "::" then
        .dict ((pieces.filter (fun x => strContains x "::")).map (fun x =>
          let parts := splitCC x.data []
          (parts.headD "", parts.tail)))
      else if pieces.contains ":" then
        .dict ((pieces.filter (fun x => strContains x ":")).map (fun x =>
          let parts := splitOnChar ':' x
          (parts.headD "", parts.tail)))
      else .strList pieces
    else if isNumericStr item then .int (natOfDigits item)
    else if strContains name "FILE" || strContains name "DIR" then .path item
    else .str item

/-- The configuration fields `init_env` assigns (the logger object is
omitted: it is I/O).  `play_hyper_sources` is the star-to-count dict. -/
structure PlexConfigModel where
  log_level : EnvVal
  log_file : EnvVal
  log_format : EnvVal
  user_token : EnvVal
  server : EnvVal
  music_section : EnvVal
  music_attrs_raw : EnvVal
  music_attrs_cooked : EnvVal
  play_loopback_mult : EnvVal
  play_unrated_name : EnvVal
  play_unrated_size : EnvVal
  play_hyper_name : EnvVal
  play_hyper_sources : Nat → EnvVal
  name : EnvVal
  load_only : Bool

/-- Embedding of `PlexConfig.init_env` on a fresh configuration (the
re-initialization guard is state the claims do not touch): every field is
the environment value when it is truthy, otherwise the hard-coded
default. -/
def init_env (nameArg : Option String) (env : Env) : PlexConfigModel :=
  { log_level := pyOr (get_from_env env "PPLAY_LOG_LEVEL") (.str "DEBUG"),
    log_file := pyOr (get_from_env env "PPLAY_LOG_FILE") (.str "logfile.log"),
    log_format := pyOr (get_from_env env "PPLAY_LOG_FORMAT")
      (.str "%(asctime)s:%(levelname)-3.3s:%(funcName)-16.16s:%(lineno)-.3d: %(message)s"),
    user_token := pyOr (get_from_env env "PPLAY_TOKEN") (.str "UnknownUserToken"),
    server := pyOr (get_from_env env "PPLAY_SERVER") (.str "UnknownPlexLibrary"),
    music_section := pyOr (get_from_env env "PPLAY_MUSIC_LIBRARY") (.str "Music"),
    music_attrs_raw := pyOr (get_from_env env "PPLAY_MUSIC_ATTRS_RAW")
      (.strList ["guid", "title", "parentTitle", "grandparentTitle", "userRating",
        "viewCount", "lastViewedAt"]),
    music_attrs_cooked := pyOr (get_from_env env "PPLAY_MUSIC_ATTRS_COOKED")
      (.strList ["id", "title", "album", "artist", "rating", "views", "lastviewed"]),
    play_loopback_mult := pyOr (get_from_env env "PPLAY_LOOKBACK_MULTIPLIER") (.int 6),
    play_unrated_name := pyOr (get_from_env env "PPLAY_UNRATED_NAME") (.str "Unrated Mix"),
    play_unrated_size := pyOr (get_from_env env "PPLAY_UNRATED_SIZE") (.int 100),
    play_hyper_name := pyOr (get_from_env env "PPLAY_HYPER_NAME") (.str "HyperShuffle"),
    play_hyper_sources := fun star =>
      if star = 5 then pyOr (get_from_env env "PPLAY_NUM_5") (.int 15)
      else if star = 4 then pyOr (get_from_env env "PPLAY_NUM_4") (.int 60)
      else if star = 3 then pyOr (get_from_env env "PPLAY_NUM_3") (.int 16)
      else if star = 2 then pyOr (get_from_env env "PPLAY_NUM_2") (.int 6)
      else if star = 1 then pyOr (get_from_env env "PPLAY_NUM_1") (.int 1)
      else if star = 0 then pyOr (get_from_env env "PPLAY_NUM_0") (.int 2)
      else .none,
    name := match nameArg with
      | Option.some n => .str n
      | Option.none => pyOr (get_from_env env "PPLAY_SERVER") (.str "PlexServer"),
    load_only := pyTruthy (get_from_env env "PPLAY_LOAD_ONLY") }

/-! ## Concrete instances used to exercise the definitions -/

/-- The all-zeroes random stream. -/
def czero : Nat → Nat := fun _ => 0

/-- An environment with no variables set. -/
def emptyEnv : Env := fun _ => Option.none

/-- An environment configuring the unrated-mix size to the string "0". -/
def envZeroSize : Env := fun nm => if nm = "PPLAY_UNRATED_SIZE" then Option.some "0" else Option.none

/-- An environment configuring the lookback multiplier to the empty string. -/
def envEmptyMult : Env :=
  fun nm => if nm = "PPLAY_LOOKBACK_MULTIPLIER" then Option.some "" else Option.none

def u1 : Row := ⟨1, "t1", "A", "art", 0, 0, Option.none⟩

def u2 : Row := ⟨2, "t2", "A", "art", 0, 0, Option.none⟩

def u3 : Row := ⟨3, "t3", "A", "art", 0, 0, Option.none⟩

def b1 : Row := ⟨4, "t4", "B", "art", 0, 0, Option.none⟩

def r5 : Row := ⟨5, "t5", "C", "art", 5, 0, Option.none⟩

/-- A raw track with an even raw rating of six (three stars once halved). -/
def rawT : RawTrack := ⟨7, "t7", "Alb", "Art", 6, 2, Option.some 5⟩

/-- Three unrated tracks, all on one album. -/
def dfU3 : DataFrame := ⟨[u1, u2, u3], true, true⟩

/-- Three unrated tracks on two albums. -/
def dfUB : DataFrame := ⟨[u1, u2, b1], true, true⟩

/-- One unrated track and one five-star track. -/
def dfSmall : DataFrame := ⟨[u1, r5], true, true⟩

/-- A table without a rating column. -/
def dfNoRating : DataFrame := ⟨[r5], false, true⟩

/-- A table with a single five-star track. -/
def dfOne : DataFrame := ⟨[r5], true, true⟩

/-! ## Helper lemmas -/

theorem get_from_env_of_unset {env : Env} {nm : String} (h : env nm = Option.none) :
    get_from_env env nm = .none := by
  unfold get_from_env
  rw [h]

theorem pyOr_of_unset {env : Env} {nm : String} (h : env nm = Option.none) (d : EnvVal) :
    pyOr (get_from_env env nm) d = d := by
  rw [get_from_env_of_unset h]
  rfl

theorem get_from_env_of_zero {env : Env} {nm : String} (h : env nm = Option.some "0") :
    get_from_env env nm = .int 0 := by
  unfold get_from_env
  rw [h]
  simp only [show strContains "0" "|" = false from by decide,
    show isNumericStr "0" = true from by decide, Bool.false_eq_true, if_false, if_true,
    ite_true, ite_false]
  decide

theorem get_from_env_of_empty {env : Env} {nm : String} (h : env nm = Option.some "")
    (hfile : strContains nm "FILE" = false) (hdir : strContains nm "DIR" = false) :
    get_from_env env nm = .str "" := by
  unfold get_from_env
  rw [h]
  simp only [hfile, hdir]
  rfl

theorem pyOr_ne_int_zero (v : EnvVal) (d : Nat) (hd : d ≠ 0) :
    pyOr v (.int d) ≠ .int 0 := by
  unfold pyOr
  split
  · intro he
    rename_i htru
    rw [he] at htru
    simp [pyTruthy] at htru
  · intro he
    cases he
    exact hd rfl

theorem numeric_field_guard (env : Env) (nm : String) (d : Nat) (hd : d ≠ 0)
    (hfile : strContains nm "FILE" = false) (hdir : strContains nm "DIR" = false) :
    ((env nm = Option.some "0" ∨ env nm = Option.some "") →
      pyOr (get_from_env env nm) (.int d) = .int d) ∧
    pyOr (get_from_env env nm) (.int d) ≠ .int 0 := by
  constructor
  · rintro (h | h)
    · rw [get_from_env_of_zero h]; rfl
    · rw [get_from_env_of_empty h hfile hdir]; rfl
  · exact pyOr_ne_int_zero _ d hd

/-! ## Claims about the configuration -/

/-- Claim C9: for every configuration name, if the corresponding environment
variable is unset when `init_env` runs, the configuration field takes its
documented default (unrated mix size 100, lookback multiplier 6, playlist
names Unrated Mix and HyperShuffle, per-rating counts 15/60/16/6/1/2 for
stars 5 down to 0, and likewise for all remaining fields). -/
theorem init_env_defaults (nameArg : Option String) (env : Env) :
    (env "PPLAY_LOG_LEVEL" = Option.none →
      (init_env nameArg env).log_level = .str "DEBUG") ∧
    (env "PPLAY_LOG_FILE" = Option.none →
      (init_env nameArg env).log_file = .str "logfile.log") ∧
    (env "PPLAY_LOG_FORMAT" = Option.none →
      (init_env nameArg env).log_format =
        .str "%(asctime)s:%(levelname)-3.3s:%(funcName)-16.16s:%(lineno)-.3d: %(message)s") ∧
    (env "PPLAY_TOKEN" = Option.none →
      (init_env nameArg env).user_token = .str "UnknownUserToken") ∧
    (env "PPLAY_SERVER" = Option.none →
      (init_env nameArg env).server = .str "UnknownPlexLibrary") ∧
    (env "PPLAY_MUSIC_LIBRARY" = Option.none →
      (init_env nameArg env).music_section = .str "Music") ∧
    (env "PPLAY_MUSIC_ATTRS_RAW" = Option.none →
      (init_env nameArg env).music_attrs_raw =
        .strList ["guid", "title", "parentTitle", "grandparentTitle", "userRating",
          "viewCount", "lastViewedAt"]) ∧
    (env "PPLAY_MUSIC_ATTRS_COOKED" = Option.none →
      (init_env nameArg env).music_attrs_cooked =
        .strList ["id", "title", "album", "artist", "rating", "views", "lastviewed"]) ∧
    (env "PPLAY_LOOKBACK_MULTIPLIER" = Option.none →
      (init_env nameArg env).play_loopback_mult = .int 6) ∧
    (env "PPLAY_UNRATED_NAME" = Option.none →
      (init_env nameArg env).play_unrated_name = .str "Unrated Mix") ∧
    (env "PPLAY_UNRATED_SIZE" = Option.none →
      (init_env nameArg env).play_unrated_size = .int 100) ∧
    (env "PPLAY_HYPER_NAME" = Option.none →
      (init_env nameArg env).play_hyper_name = .str "HyperShuffle") ∧
    (env "PPLAY_NUM_5" = Option.none →
      (init_env nameArg env).play_hyper_sources 5 = .int 15) ∧
    (env "PPLAY_NUM_4" = Option.none →
      (init_env nameArg env).play_hyper_sources 4 = .int 60) ∧
    (env "PPLAY_NUM_3" = Option.none →
      (init_env nameArg env).play_hyper_sources 3 = .int 16) ∧
    (env "PPLAY_NUM_2" = Option.none →
      (init_env nameArg env).play_hyper_sources 2 = .int 6) ∧
    (env "PPLAY_NUM_1" = Option.none →
      (init_env nameArg env).play_hyper_sources 1 = .int 1) ∧
    (env "PPLAY_NUM_0" = Option.none →
      (init_env nameArg env).play_hyper_sources 0 = .int 2) ∧
    (env "PPLAY_LOAD_ONLY" = Option.none →
      (init_env nameArg env).load_only = false) ∧
    (nameArg = Option.none → env "PPLAY_SERVER" = Option.none →
      (init_env nameArg env).name = .str "PlexServer") := by
  refine ⟨fun h => ?_, fun h => ?_, fun h => ?_, fun h => ?_, fun h => ?_, fun h => ?_,
    fun h => ?_, fun h => ?_, fun h => ?_, fun h => ?_, fun h => ?_, fun h => ?_,
    fun h => ?_, fun h => ?_, fun h => ?_, fun h => ?_, fun h => ?_, fun h => ?_,
    fun h => ?_, fun hn h => ?_⟩
  all_goals first
    | (subst hn; simp [init_env, get_from_env_of_unset h, pyOr, pyTruthy])
    | simp [init_env, get_from_env_of_unset h, pyOr, pyTruthy]

/-- Witness for claim C9 at the empty environment. -/
theorem init_env_defaults_witness :
    (init_env Option.none emptyEnv).play_unrated_size = .int 100 ∧
    (init_env Option.none emptyEnv).play_loopback_mult = .int 6 ∧
    (init_env Option.none emptyEnv).play_unrated_name = .str "Unrated Mix" ∧
    (init_env Option.none emptyEnv).play_hyper_name = .str "HyperShuffle" ∧
    (init_env Option.none emptyEnv).play_hyper_sources 5 = .int 15 ∧
    (init_env Option.none emptyEnv).play_hyper_sources 0 = .int 2 := by
  have h := init_env_defaults Option.none emptyEnv
  exact ⟨h.2.2.2.2.2.2.2.2.2.2.1 rfl, h.2.2.2.2.2.2.2.2.1 rfl, h.2.2.2.2.2.2.2.2.2.1 rfl,
    h.2.2.2.2.2.2.2.2.2.2.2.1 rfl, h.2.2.2.2.2.2.2.2.2.2.2.2.1 rfl,
    h.2.2.2.2.2.2.2.2.2.2.2.2.2.2.2.2.2.1 rfl⟩

/-- Claim C10: a numeric configuration variable set to the string "0" (or to
the empty string) is treated like a missing variable and the default is
used; no numeric configuration field (per-rating count, unrated-mix size or
lookback multiplier) can be configured to the integer zero through the
environment. -/
theorem init_env_no_zero_numeric (nameArg : Option String) (env : Env) :
    ((env "PPLAY_LOOKBACK_MULTIPLIER" = Option.some "0" ∨
        env "PPLAY_LOOKBACK_MULTIPLIER" = Option.some "") →
      (init_env nameArg env).play_loopback_mult = .int 6) ∧
    (init_env nameArg env).play_loopback_mult ≠ .int 0 ∧
    ((env "PPLAY_UNRATED_SIZE" = Option.some "0" ∨ env "PPLAY_UNRATED_SIZE" = Option.some "") →
      (init_env nameArg env).play_unrated_size = .int 100) ∧
    (init_env nameArg env).play_unrated_size ≠ .int 0 ∧
    ((env "PPLAY_NUM_5" = Option.some "0" ∨ env "PPLAY_NUM_5" = Option.some "") →
      (init_env nameArg env).play_hyper_sources 5 = .int 15) ∧
    (init_env nameArg env).play_hyper_sources 5 ≠ .int 0 ∧
    ((env "PPLAY_NUM_4" = Option.some "0" ∨ env "PPLAY_NUM_4" = Option.some "") →
      (init_env nameArg env).play_hyper_sources 4 = .int 60) ∧
    (init_env nameArg env).play_hyper_sources 4 ≠ .int 0 ∧
    ((env "PPLAY_NUM_3" = Option.some "0" ∨ env "PPLAY_NUM_3" = Option.some "") →
      (init_env nameArg env).play_hyper_sources 3 = .int 16) ∧
    (init_env nameArg env).play_hyper_sources 3 ≠ .int 0 ∧
    ((env "PPLAY_NUM_2" = Option.some "0" ∨ env "PPLAY_NUM_2" = Option.some "") →
      (init_env nameArg env).play_hyper_sources 2 = .int 6) ∧
    (init_env nameArg env).play_hyper_sources 2 ≠ .int 0 ∧
    ((env "PPLAY_NUM_1" = Option.some "0" ∨ env "PPLAY_NUM_1" = Option.some "") →
      (init_env nameArg env).play_hyper_sources 1 = .int 1) ∧
    (init_env nameArg env).play_hyper_sources 1 ≠ .int 0 ∧
    ((env "PPLAY_NUM_0" = Option.some "0" ∨ env "PPLAY_NUM_0" = Option.some "") →
      (init_env nameArg env).play_hyper_sources 0 = .int 2) ∧
    (init_env nameArg env).play_hyper_sources 0 ≠ .int 0 := by
  have hmult := numeric_field_guard env "PPLAY_LOOKBACK_MULTIPLIER" 6 (by decide)
    (by decide) (by decide)
  have hsize := numeric_field_guard env "PPLAY_UNRATED_SIZE" 100 (by decide)
    (by decide) (by decide)
  have h5 := numeric_field_guard env "PPLAY_NUM_5" 15 (by decide) (by decide) (by decide)
  have h4 := numeric_field_guard env "PPLAY_NUM_4" 60 (by decide) (by decide) (by decide)
  have h3 := numeric_field_guard env "PPLAY_NUM_3" 16 (by decide) (by decide) (by decide)
  have h2 := numeric_field_guard env "PPLAY_NUM_2" 6 (by decide) (by decide) (by decide)
  have h1 := numeric_field_guard env "PPLAY_NUM_1" 1 (by decide) (by decide) (by decide)
  have h0 := numeric_field_guard env "PPLAY_NUM_0" 2 (by decide) (by decide) (by decide)
  refine ⟨fun h => ?_, ?_, fun h => ?_, ?_, fun h => ?_, ?_, fun h => ?_, ?_, fun h => ?_,
    ?_, fun h => ?_, ?_, fun h => ?_, ?_, fun h => ?_, ?_⟩
  all_goals simp only [init_env, show ((5:Nat) = 5) = True from by simp,
    show ((4:Nat) = 5) = False from by simp, show ((4:Nat) = 4) = True from by simp,
    show ((3:Nat) = 5) = False from by simp, show ((3:Nat) = 4) = False from by simp,
    show ((3:Nat) = 3) = True from by simp, show ((2:Nat) = 5) = False from by simp,
    show ((2:Nat) = 4) = False from by simp, show ((2:Nat) = 3) = False from by simp,
    show ((2:Nat) = 2) = True from by simp, show ((1:Nat) = 5) = False from by simp,
    show ((1:Nat) = 4) = False from by simp, show ((1:Nat) = 3) = False from by simp,
    show ((1:Nat) = 2) = False from by simp, show ((1:Nat) = 1) = True from by simp,
    show ((0:Nat) = 5) = False from by simp, show ((0:Nat) = 4) = False from by simp,
    show ((0:Nat) = 3) = False from by simp, show ((0:Nat) = 2) = False from by simp,
    show ((0:Nat) = 1) = False from by simp, show ((0:Nat) = 0) = True from by simp,
    if_true, if_false, ite_true, ite_false]
  · exact hmult.1 h
  · exact hmult.2
  · exact hsize.1 h
  · exact hsize.2
  · exact h5.1 h
  · exact h5.2
  · exact h4.1 h
  · exact h4.2
  · exact h3.1 h
  · exact h3.2
  · exact h2.1 h
  · exact h2.2
  · exact h1.1 h
  · exact h1.2
  · exact h0.1 h
  · exact h0.2

/-- Witness for claim C10: the size variable set to "0" yields the default
100, the multiplier variable set to "" yields the default 6. -/
theorem init_env_no_zero_numeric_witness :
    (init_env Option.none envZeroSize).play_unrated_size = .int 100 ∧
    (init_env Option.none envEmptyMult).play_loopback_mult = .int 6 := by
  refine ⟨(init_env_no_zero_numeric Option.none envZeroSize).2.2.1 (Or.inl (by decide)), ?_⟩
  exact (init_env_no_zero_numeric Option.none envEmptyMult).1 (Or.inr (by decide))

/-! ## Claims about generate_unrated_mix branches and size -/

/-- Claim C6: on a table with a rating column whose unrated set is no larger
than the target size, `generate_unrated_mix` returns exactly the unrated
rows, in table order, nothing else. -/
theorem generate_unrated_mix_small (mixName : String) (mixSize : Nat) (gA c : Nat → Nat)
    (fuel : Nat) (df : DataFrame) (hr : df.hasRating = true)
    (hle : (unratedTemp df).length ≤ mixSize) :
    generate_unrated_mix mixName mixSize gA c fuel df = some (mixName, unratedTemp df) := by
  unfold generate_unrated_mix
  rw [hr]
  simp [hle]

/-- Witness for claim C6: a table with one unrated and one five-star track
yields exactly the unrated track. -/
theorem generate_unrated_mix_small_witness :
    generate_unrated_mix "Unrated Mix" 100 czero czero 0 dfSmall = some ("Unrated Mix", [u1]) := by
  have h := generate_unrated_mix_small "Unrated Mix" 100 czero czero 0 dfSmall
    (by decide) (by decide)
  rw [h]
  decide

theorem length_unratedStep_le (temp : List Row) (albums : List String) (c : Nat → Nat)
    (i : Nat) (acc : List Row) : (unratedStep temp albums c i acc).length ≤ acc.length + 1 := by
  unfold unratedStep
  dsimp only
  split
  · omega
  · simp

theorem unratedLoop_le (mixSize : Nat) (temp : List Row) (albums : List String) (c : Nat → Nat) :
    ∀ fuel i acc l, acc.length ≤ mixSize →
      unratedLoop mixSize temp albums c fuel i acc = some l → l.length ≤ mixSize := by
  intro fuel
  induction fuel with
  | zero =>
    intro i acc l hle hl
    unfold unratedLoop at hl
    split at hl
    · simp only [Option.some.injEq] at hl
      subst hl
      exact hle
    · simp at hl
  | succ fuel ih =>
    intro i acc l hle hl
    unfold unratedLoop at hl
    split at hl
    · simp only [Option.some.injEq] at hl
      subst hl
      exact hle
    · rename_i hlt
      have hstep := length_unratedStep_le temp albums c i acc
      exact ih (i + 1) _ l (by omega) hl

/-- Claim C5: whatever the input table, random streams and fuel, when
`generate_unrated_mix` returns a track list it holds at most the configured
target size of tracks. -/
theorem generate_unrated_mix_size (mixName : String) (mixSize : Nat) (gA c : Nat → Nat)
    (fuel : Nat) (df : DataFrame) (nm : String) (l : List Row)
    (h : generate_unrated_mix mixName mixSize gA c fuel df = some (nm, l)) :
    l.length ≤ mixSize := by
  unfold generate_unrated_mix at h
  split at h
  · dsimp only at h
    split at h
    · rename_i hle
      simp only [Option.some.injEq, Prod.mk.injEq] at h
      rw [← h.2]
      exact hle
    · obtain ⟨l0, hl0, heq⟩ := Option.map_eq_some'.mp h
      have hlen := unratedLoop_le mixSize (unratedTemp df) _ c fuel 0 [] l0 (by simp) hl0
      simp only [Prod.mk.injEq] at heq
      rw [← heq.2]
      exact hlen
  · simp only [Option.some.injEq, Prod.mk.injEq] at h
    rw [← h.2]
    simp

/-- Witness for claim C5: one round-robin draw on a three-track table with
target size one returns a single track. -/
theorem generate_unrated_mix_size_witness : ([u1] : List Row).length ≤ 1 :=
  generate_unrated_mix_size "Unrated Mix" 1 czero czero 1 dfUB "Unrated Mix" [u1] (by decide)

/-! ## Claim about missing rating data -/

/-- Counterexample to claim C1 as stated: on a table without a rating
column, `generate_hyper_shuffle_mix` raises `AttributeError` (the source has
no `hasattr` guard and `musicpd.rating` fails) instead of returning an
empty candidate list. -/
theorem hyper_shuffle_missing_rating_cex :
    generate_hyper_shuffle_mix "HyperShuffle" (fun _ => 1) 6 (fun _ _ => 0) czero dfNoRating =
      .error .attributeError ∧
    ¬ ∃ p, generate_hyper_shuffle_mix "HyperShuffle" (fun _ => 1) 6 (fun _ _ => 0) czero dfNoRating =
      .ok p := by
  constructor
  · rfl
  · rintro ⟨p, hp⟩
    simp [generate_hyper_shuffle_mix, dfNoRating] at hp

/-- Claim C1 as amended: on a table without a rating column,
`generate_unrated_mix` degrades gracefully to an empty candidate list,
while `generate_hyper_shuffle_mix` raises `AttributeError`.  Both selectors
are pure functions of the table and the random streams: no network happens
during selection in this embedding. -/
theorem selectors_missing_rating (mixName : String) (mixSize : Nat) (gA c : Nat → Nat)
    (fuel : Nat) (counts : Nat → Nat) (mult : Nat) (gs : Nat → Nat → Nat) (gsh : Nat → Nat)
    (df : DataFrame) (h : df.hasRating = false) :
    generate_unrated_mix mixName mixSize gA c fuel df = some (mixName, []) ∧
    generate_hyper_shuffle_mix mixName counts mult gs gsh df = .error .attributeError := by
  constructor
  · unfold generate_unrated_mix
    rw [h]
    simp
  · unfold generate_hyper_shuffle_mix
    rw [h]
    simp

/-- Witness for the amended claim C1 at a concrete one-track table without
a rating column. -/
theorem selectors_missing_rating_witness :
    generate_unrated_mix "Mix" 100 czero czero 3 dfNoRating = some ("Mix", []) ∧
    generate_hyper_shuffle_mix "Mix" (fun _ => 1) 6 (fun _ _ => 0) czero dfNoRating =
      .error .attributeError :=
  selectors_missing_rating "Mix" 100 czero czero 3 (fun _ => 1) 6 (fun _ _ => 0) czero
    dfNoRating (by decide)

/-! ## Claim about get_all_tracks -/

theorem dedupByFirst_key_nodup [DecidableEq β] (key : α → β) :
    ∀ (l : List α) (seen : List β),
      ((dedupByFirst key l seen).map key).Nodup ∧
      ∀ b ∈ (dedupByFirst key l seen).map key, b ∉ seen := by
  intro l
  induction l with
  | nil =>
    intro seen
    constructor
    · simp [dedupByFirst]
    · simp [dedupByFirst]
  | cons a l ih =>
    intro seen
    unfold dedupByFirst
    split
    · exact ih seen
    · rename_i hnot
      constructor
      · simp only [List.map_cons, List.nodup_cons]
        constructor
        · intro hmem
          exact (ih (key a :: seen)).2 _ hmem (List.mem_cons_self _ _)
        · exact (ih _).1
      · intro b hb
        simp only [List.map_cons, List.mem_cons] at hb
        rcases hb with hb | hb
        · subst hb
          exact hnot
        · intro hbseen
          exact (ih (key a :: seen)).2 _ hb (List.mem_cons_of_mem _ hbseen)

theorem dedupByFirst_subset [DecidableEq β] (key : α → β) :
    ∀ (l : List α) (seen : List β), dedupByFirst key l seen ⊆ l := by
  intro l
  induction l with
  | nil => intro seen; simp [dedupByFirst]
  | cons a l ih =>
    intro seen
    unfold dedupByFirst
    split
    · exact (ih seen).trans (List.subset_cons_self a l)
    · exact List.cons_subset_cons a (ih _)

/-- Claim C8: the table built by `get_all_tracks` carries no two rows with
the same identifier, and when the rating attribute is present every row
rating is the raw source rating halved. -/
theorem get_all_tracks_nodup_halved (hasR hasL : Bool) (raws : List RawTrack) :
    ((get_all_tracks hasR hasL raws).rows.map (fun r => r.id)).Nodup ∧
    ∀ r ∈ (get_all_tracks true hasL raws).rows, ∃ t ∈ raws,
      r.id = t.guid ∧ r.rating = t.userRating / 2 := by
  constructor
  · have base := (dedupByFirst_key_nodup (fun r : Row => r.id) (raws.map toRow) []).1
    have hcomp : ((fun r : Row => r.id) ∘ (fun r : Row => { r with rating := r.rating / 2 })) =
        fun r : Row => r.id := rfl
    unfold get_all_tracks
    cases hasR
    · simpa using base
    · simp only [if_true, ite_true, List.map_map, hcomp]
      simpa using base
  · intro r hmem
    unfold get_all_tracks at hmem
    simp only [if_true] at hmem
    obtain ⟨r0, hr0, hreq⟩ := List.mem_map.mp hmem
    have hsub : r0 ∈ raws.map toRow := dedupByFirst_subset _ _ _ hr0
    obtain ⟨t, ht, htq⟩ := List.mem_map.mp hsub
    subst hreq
    subst htq
    exact ⟨t, ht, rfl, rfl⟩

/-- Witness for claim C8 at a single raw track: the unique produced row has
the raw identifier and the halved rating. -/
theorem get_all_tracks_nodup_halved_witness :
    ((get_all_tracks true true [rawT]).rows.map (fun r => r.id)).Nodup ∧
    ∃ t ∈ [rawT], ((get_all_tracks true true [rawT]).rows.headD default).id = t.guid ∧
      ((get_all_tracks true true [rawT]).rows.headD default).rating = t.userRating / 2 := by
  have h := get_all_tracks_nodup_halved true true [rawT]
  exact ⟨h.1, h.2 _ (List.mem_singleton_self _)⟩

/-! ## Claims about generate_hyper_shuffle_mix -/

theorem hyperBucket_eq_spec (rows : List Row) (star count mult : Nat) (g : Nat → Nat) :
    hyperBucket rows star count mult g = specBucketContribution rows star count mult g := by
  unfold hyperBucket specBucketContribution
  dsimp only

/-- Claim C2: on a table with rating and last-played columns,
`generate_hyper_shuffle_mix` returns exactly the shuffled concatenation of
the per-star bucket contributions described by the specification: tracks at
the rating, sorted ascending by last-played with unplayed first, windowed
to the first `count * multiplier`, sampled down to `count` when the window
holds at least `count` tracks and taken whole otherwise. -/
theorem generate_hyper_shuffle_spec (mixName : String) (counts : Nat → Nat) (mult : Nat)
    (gs : Nat → Nat → Nat) (gsh : Nat → Nat) (df : DataFrame)
    (hr : df.hasRating = true) (hl : df.hasLastviewed = true) :
    generate_hyper_shuffle_mix mixName counts mult gs gsh df =
      .ok (mixName, shuffle gsh ((hyperStars.map
        (fun s => specBucketContribution df.rows s (counts s) mult (gs s))).flatten)) := by
  unfold generate_hyper_shuffle_mix
  rw [hr, hl]
  simp [hyperBucket_eq_spec]

/-- Witness for claim C2 at a one-track table. -/
theorem generate_hyper_shuffle_spec_witness :
    generate_hyper_shuffle_mix "HyperShuffle" (fun _ => 1) 6 (fun _ _ => 0) czero dfOne =
      .ok ("HyperShuffle", shuffle czero ((hyperStars.map
        (fun s => specBucketContribution dfOne.rows s 1 6 czero)).flatten)) :=
  generate_hyper_shuffle_spec "HyperShuffle" (fun _ => 1) 6 (fun _ _ => 0) czero dfOne rfl rfl

theorem hyperBucket_subperm (rows : List Row) (star count mult : Nat) (g : Nat → Nat) :
    hyperBucket rows star count mult g <+~ rows := by
  unfold hyperBucket
  dsimp only
  have h1 : (rows.filter (fun r => decide (r.rating = (star : Rat)))) <+ rows :=
    List.filter_sublist _
  have h2 : ((rows.filter (fun r => decide (r.rating = (star : Rat)))).mergeSort
      (fun a b => lastviewedLe a.lastviewed b.lastviewed)) ~
      (rows.filter (fun r => decide (r.rating = (star : Rat)))) :=
    List.mergeSort_perm _ _
  have h3 : (((rows.filter (fun r => decide (r.rating = (star : Rat)))).mergeSort
      (fun a b => lastviewedLe a.lastviewed b.lastviewed)).take (count * mult)) <+
      ((rows.filter (fun r => decide (r.rating = (star : Rat)))).mergeSort
      (fun a b => lastviewedLe a.lastviewed b.lastviewed)) :=
    List.take_sublist _ _
  have hts := (h3.subperm.trans h2.subperm).trans h1.subperm
  split
  · exact (sample_subperm _ _ _).trans hts
  · exact hts

/-- Claim C7: on a table whose rows carry pairwise distinct identifiers, a
single bucket contribution of the HyperShuffle selector carries no
duplicate track identifier (sampling is without replacement). -/
theorem hyperBucket_nodup_ids (rows : List Row) (star count mult : Nat) (g : Nat → Nat)
    (h : (rows.map (fun r => r.id)).Nodup) :
    ((hyperBucket rows star count mult g).map (fun r => r.id)).Nodup :=
  nodup_map_of_subperm _ (hyperBucket_subperm rows star count mult g) h

/-- Witness for claim C7 at a concrete one-track table. -/
theorem hyperBucket_nodup_ids_witness :
    ((hyperBucket [r5] 5 1 6 czero).map (fun r => r.id)).Nodup :=
  hyperBucket_nodup_ids [r5] 5 1 6 czero (by decide)

theorem init_env_mult_pos (nameArg : Option String) (env : Env) (mult : Nat)
    (h : (init_env nameArg env).play_loopback_mult = .int mult) : 1 ≤ mult := by
  have hne := pyOr_ne_int_zero (get_from_env env "PPLAY_LOOKBACK_MULTIPLIER") 6 (by decide)
  have hfield : (init_env nameArg env).play_loopback_mult =
      pyOr (get_from_env env "PPLAY_LOOKBACK_MULTIPLIER") (.int 6) := rfl
  rw [hfield] at h
  rcases Nat.eq_zero_or_pos mult with h0 | h0
  · subst h0
    exact absurd h hne
  · exact h0

theorem length_hyperBucket (rows : List Row) (star count mult : Nat) (g : Nat → Nat) :
    (hyperBucket rows star count mult g).length =
      min count (min (count * mult)
        ((rows.filter (fun r => decide (r.rating = (star : Rat)))).length)) := by
  unfold hyperBucket
  dsimp only
  split
  · rename_i hc
    rw [length_sample]
    simp only [List.length_take, List.length_mergeSort] at hc ⊢
  · rename_i hc
    simp only [List.length_take, List.length_mergeSort] at hc ⊢
    omega

/-- Claim C3: with the configured lookback multiplier, the HyperShuffle
selector returns at most the sum of the configured per-rating counts, and
each bucket contributes at least the lesser of its configured count and the
number of tracks at that rating. -/
theorem generate_hyper_shuffle_bounds (nameArg : Option String) (env : Env)
    (mixName : String) (counts : Nat → Nat) (mult : Nat) (gs : Nat → Nat → Nat)
    (gsh : Nat → Nat) (df : DataFrame) (nm : String) (l : List Row)
    (hmult : (init_env nameArg env).play_loopback_mult = .int mult)
    (hok : generate_hyper_shuffle_mix mixName counts mult gs gsh df = .ok (nm, l)) :
    l.length ≤ (hyperStars.map counts).sum ∧
    ∀ star, min (counts star)
        ((df.rows.filter (fun r => decide (r.rating = (star : Rat)))).length) ≤
      (hyperBucket df.rows star (counts star) mult (gs star)).length := by
  have hm : 1 ≤ mult := init_env_mult_pos nameArg env mult hmult
  constructor
  · unfold generate_hyper_shuffle_mix at hok
    split at hok
    · simp at hok
    · split at hok
      · simp at hok
      · dsimp only at hok
        simp only [Except.ok.injEq, Prod.mk.injEq] at hok
        rw [← hok.2]
        rw [length_shuffle, List.length_flatten, List.map_map]
        refine List.sum_le_sum ?_
        intro s _
        show (hyperBucket df.rows s (counts s) mult (gs s)).length ≤ counts s
        rw [length_hyperBucket]
        omega
  · intro star
    rw [length_hyperBucket]
    have hcm : counts star ≤ counts star * mult := by
      calc counts star = counts star * 1 := by omega
        _ ≤ counts star * mult := Nat.mul_le_mul_left _ hm
    omega

unseal List.merge List.mergeSort in
/-- Witness for claim C3: default multiplier from an empty environment,
one-track table, per-star counts all one. -/
theorem generate_hyper_shuffle_bounds_witness :
    ([r5] : List Row).length ≤ (hyperStars.map (fun _ => 1)).sum ∧
    min 1 ((dfOne.rows.filter (fun r => decide (r.rating = ((5 : Nat) : Rat)))).length) ≤
      (hyperBucket dfOne.rows 5 1 6 czero).length := by
  have h := generate_hyper_shuffle_bounds Option.none emptyEnv "HyperShuffle" (fun _ => 1) 6
    (fun _ _ => 0) czero dfOne "HyperShuffle" [r5] rfl (by decide)
  exact ⟨h.1, h.2 5⟩

/-! ## Claim about termination of the unrated-mix loop -/

theorem unratedStep_dfU3_nil (i : Nat) : unratedStep [u1, u2, u3] ["A"] czero i [] = [u1] := by
  unfold unratedStep
  dsimp only
  rw [show (["A"] : List String).length = 1 from rfl, Nat.mod_one]
  rfl

theorem unratedStep_dfU3_u1 (i : Nat) : unratedStep [u1, u2, u3] ["A"] czero i [u1] = [u1] := by
  unfold unratedStep
  dsimp only
  rw [show (["A"] : List String).length = 1 from rfl, Nat.mod_one]
  rfl

theorem unratedLoop_dfU3_stuck :
    ∀ fuel i acc, (acc = [] ∨ acc = [u1]) →
      unratedLoop 2 [u1, u2, u3] ["A"] czero fuel i acc = none := by
  intro fuel
  induction fuel with
  | zero =>
    intro i acc hacc
    rcases hacc with h | h <;> subst h <;> rfl
  | succ fuel ih =>
    intro i acc hacc
    rcases hacc with h | h <;> subst h
    · show unratedLoop 2 [u1, u2, u3] ["A"] czero (fuel + 1) i [] = none
      unfold unratedLoop
      rw [if_neg (by decide)]
      rw [unratedStep_dfU3_nil i]
      exact ih (i + 1) [u1] (Or.inr rfl)
    · show unratedLoop 2 [u1, u2, u3] ["A"] czero (fuel + 1) i [u1] = none
      unfold unratedLoop
      rw [if_neg (by decide)]
      rw [unratedStep_dfU3_u1 i]
      exact ih (i + 1) [u1] (Or.inr rfl)

/-- Counterexample to claim C4 as stated: on a three-track one-album table
with target size two, the stream of random choices that always draws the
first track of the pool never grows the result set past one track, so the
round-robin loop never reaches the target size, for any amount of fuel.
Termination does not hold for every sequence of random choices. -/
theorem unrated_mix_nontermination_cex :
    ¬ ∃ fuel p, generate_unrated_mix "Unrated Mix" 2 czero czero fuel dfU3 = some p := by
  rintro ⟨fuel, p, hp⟩
  have hgen : generate_unrated_mix "Unrated Mix" 2 czero czero fuel dfU3 =
      Option.map (fun l => ("Unrated Mix", l)) (unratedLoop 2 [u1, u2, u3] ["A"] czero fuel 0 []) :=
    rfl
  rw [hgen, unratedLoop_dfU3_stuck fuel 0 [] (Or.inl rfl)] at hp
  simp at hp

theorem unratedLoop_reaches (mixSize : Nat) (temp : List Row) (albums : List String)
    (c : Nat → Nat) (hnodup : albums.Nodup)
    (hpool : ∀ a ∈ albums, albumPool temp a ≠ [])
    (hlen : mixSize ≤ albums.length) :
    ∀ fuel acc, acc.length + fuel = mixSize →
      (∀ r ∈ acc, r.album ∈ albums.take acc.length) →
      ∃ l, unratedLoop mixSize temp albums c fuel acc.length acc = some l := by
  intro fuel
  induction fuel with
  | zero =>
    intro acc hsum _
    refine ⟨acc, ?_⟩
    unfold unratedLoop
    rw [if_pos (by omega)]
  | succ fuel ih =>
    intro acc hsum hsub
    have hacc : acc.length < mixSize := by omega
    have hj : acc.length < albums.length := by omega
    have hmod : acc.length % albums.length = acc.length := Nat.mod_eq_of_lt hj
    have hodd : albums.getD (acc.length % albums.length) "" = albums[acc.length] := by
      rw [hmod]
      exact List.getD_eq_getElem _ _ hj
    have halbmem : albums[acc.length] ∈ albums := List.getElem_mem hj
    have hpne : albumPool temp albums[acc.length] ≠ [] := hpool _ halbmem
    have hplen : 0 < (albumPool temp albums[acc.length]).length := List.length_pos.mpr hpne
    have hpicklt : c acc.length % (albumPool temp albums[acc.length]).length <
        (albumPool temp albums[acc.length]).length := Nat.mod_lt _ hplen
    have hpickmem : pyChoice c acc.length (albumPool temp albums[acc.length]) ∈
        albumPool temp albums[acc.length] := by
      unfold pyChoice
      rw [List.getD_eq_getElem _ _ hpicklt]
      exact List.getElem_mem hpicklt
    have hpickalb : (pyChoice c acc.length (albumPool temp albums[acc.length])).album =
        albums[acc.length] := by
      unfold albumPool at hpickmem
      exact of_decide_eq_true (List.mem_filter.mp hpickmem).2
    have hpicknot : pyChoice c acc.length (albumPool temp albums[acc.length]) ∉ acc := by
      intro hin
      have htake := hsub _ hin
      rw [hpickalb] at htake
      obtain ⟨m, hm, hmeq⟩ := List.mem_iff_getElem.mp htake
      have hmlt : m < acc.length := by
        simp only [List.length_take] at hm
        omega
      rw [List.getElem_take] at hmeq
      have := hnodup.getElem_inj_iff.mp hmeq
      omega
    have hstep : unratedStep temp albums c acc.length acc =
        acc ++ [pyChoice c acc.length (albumPool temp albums[acc.length])] := by
      unfold unratedStep
      dsimp only
      rw [hodd]
      rw [if_neg hpicknot]
    have hsum' : (acc ++ [pyChoice c acc.length (albumPool temp albums[acc.length])]).length +
        fuel = mixSize := by
      simp only [List.length_append, List.length_cons, List.length_nil]
      omega
    have hsub' : ∀ r ∈ acc ++ [pyChoice c acc.length (albumPool temp albums[acc.length])],
        r.album ∈ albums.take
          (acc ++ [pyChoice c acc.length (albumPool temp albums[acc.length])]).length := by
      intro r hr0
      have hlen' : (acc ++ [pyChoice c acc.length (albumPool temp albums[acc.length])]).length =
          acc.length + 1 := by
        simp
      rw [hlen']
      have htake : albums.take (acc.length + 1) =
          albums.take acc.length ++ [albums[acc.length]] := by
        rw [List.take_succ, List.getElem?_eq_getElem hj]
        rfl
      rw [htake]
      rcases List.mem_append.mp hr0 with hin | hin
      · exact List.mem_append_left _ (hsub _ hin)
      · have hrp : r = pyChoice c acc.length (albumPool temp albums[acc.length]) := by
          simpa using hin
        subst hrp
        rw [hpickalb]
        exact List.mem_append_right _ (List.mem_singleton_self _)
    obtain ⟨l, hl⟩ := ih (acc ++ [pyChoice c acc.length (albumPool temp albums[acc.length])])
      hsum' hsub'
    refine ⟨l, ?_⟩
    unfold unratedLoop
    rw [if_neg (by omega)]
    rw [hstep]
    simp only [List.length_append, List.length_cons, List.length_nil] at hl
    exact hl

/-- Claim C4 as amended: when the unrated set is larger than the target
size, the round-robin loop of `generate_unrated_mix` terminates for every
sequence of random choices provided the target size is at most the number
of distinct albums holding unrated tracks (the first visit to each album
necessarily adds a fresh track); without that proviso some sequences of
choices never reach the target size (see the counterexample). -/
theorem generate_unrated_mix_terminates (mixName : String) (mixSize : Nat) (gA c : Nat → Nat)
    (df : DataFrame) (hr : df.hasRating = true)
    (hgt : mixSize < (unratedTemp df).length)
    (halb : mixSize ≤
      (dedupByFirst (fun a => a) ((unratedTemp df).map (fun r => r.album)) []).length) :
    ∃ fuel p, generate_unrated_mix mixName mixSize gA c fuel df = some p := by
  have hdnodup : (dedupByFirst (fun a => a) ((unratedTemp df).map (fun r => r.album)) []).Nodup := by
    have h := (dedupByFirst_key_nodup (fun a : String => a)
      ((unratedTemp df).map (fun r => r.album)) []).1
    simpa using h
  have hperm : shuffle gA (dedupByFirst (fun a => a) ((unratedTemp df).map (fun r => r.album)) []) ~
      dedupByFirst (fun a => a) ((unratedTemp df).map (fun r => r.album)) [] :=
    shuffle_perm gA _
  have hnodup : (shuffle gA
      (dedupByFirst (fun a => a) ((unratedTemp df).map (fun r => r.album)) [])).Nodup :=
    hperm.nodup_iff.mpr hdnodup
  have hpool : ∀ a ∈ shuffle gA
      (dedupByFirst (fun a => a) ((unratedTemp df).map (fun r => r.album)) []),
      albumPool (unratedTemp df) a ≠ [] := by
    intro a ha
    have hadedup := hperm.mem_iff.mp ha
    have hamap : a ∈ (unratedTemp df).map (fun r => r.album) :=
      dedupByFirst_subset _ _ _ hadedup
    obtain ⟨r, hrtemp, hra⟩ := List.mem_map.mp hamap
    have hrpool : r ∈ albumPool (unratedTemp df) a := by
      unfold albumPool
      exact List.mem_filter.mpr ⟨hrtemp, by simp [hra]⟩
    exact List.ne_nil_of_mem hrpool
  have hlen : mixSize ≤ (shuffle gA
      (dedupByFirst (fun a => a) ((unratedTemp df).map (fun r => r.album)) [])).length := by
    rw [hperm.length_eq]
    exact halb
  obtain ⟨l, hl⟩ := unratedLoop_reaches mixSize (unratedTemp df) _ c hnodup hpool hlen
    mixSize [] (by simp) (by simp)
  refine ⟨mixSize, (mixName, l), ?_⟩
  unfold generate_unrated_mix
  rw [hr]
  have hnle : ¬ (unratedTemp df).length ≤ mixSize := by omega
  simp only [ite_true, if_true, hnle, ite_false, if_false]
  rw [show ([] : List Row).length = 0 from rfl] at hl
  rw [hl]
  rfl

/-- Witness for the amended claim C4: three unrated tracks on two albums,
target size one: one round of fuel suffices. -/
theorem generate_unrated_mix_terminates_witness :
    ∃ fuel p, generate_unrated_mix "Unrated Mix" 1 czero czero fuel dfUB = some p :=
  generate_unrated_mix_terminates "Unrated Mix" 1 czero czero dfUB (by decide) (by decide)
    (by decide)

end PlexPlay
